import Mathlib

/-!
Verification of the TCP MODBUS framing core (`src/protocols/tcp_modbus.rs` of
`modbus-minimal`). Byte buffers are modelled as `List Byte` with `Byte := Fin 256`;
Rust's bounds-checked `data.get(i)` is the total lookup `data[i]?`; fallible
operations return `Except ModbusError`.
-/

deriving instance DecidableEq for Except

namespace ModbusMinimal

/-- Modelled from the spec: `ModbusError` is declared in the crate root, which is
not among the provided sources. Section 2 of the spec calls it a shared error
taxonomy; sections 4.1 and 7 name `NotEnoughData` as the only kind the TCP
variant uses, plus a distinct checksum-mismatch class reserved for
checksum-bearing variants. -/
inductive ModbusError where
  | NotEnoughData
  | ChecksumMismatch
deriving DecidableEq

/-- A byte, Rust `u8`. -/
abbrev Byte : Type := Fin 256

/-- Rust `u16::from_be_bytes([hi, lo])`, as a natural number (always below 2^16). -/
def u16_from_be_bytes (hi lo : Byte) : Nat := 256 * hi.val + lo.val

/-- Constant `MBAP_LENGTH` from the source: length of the MODBUS Application
Protocol header (2-byte transaction ID, 2-byte protocol ID, 2-byte length,
1-byte unit ID). -/
def MBAP_LENGTH : Nat := 7

/-- Constant `EXCLUDED_LENGTH` from the source: number of ADU bytes excluded
from the length field. -/
def EXCLUDED_LENGTH : Nat := 6

/-- Struct `TcpModbusHeader` from the source; the `u16` fields are carried as
naturals below 2^16 and `unit_id` as a byte value below 2^8. -/
structure TcpModbusHeader where
  transaction_id : Nat
  protocol_id : Nat
  length : Nat
  unit_id : Nat
deriving DecidableEq

/-- Rust `Option::ok_or`, specialised to `ModbusError`; used by `adu_header`. -/
def ok_or {α : Type} (o : Option α) (e : ModbusError) : Except ModbusError α :=
  match o with
  | some v => Except.ok v
  | none => Except.error e

namespace TcpModbus

/-- `TcpModbus::protocol_id`: big-endian 16-bit read at offsets 2 and 3, each
byte via the bounds-checked `data.get`, with `?` short-circuiting to `None`. -/
def protocol_id (data : List Byte) : Option Nat :=
  (data[2]?).bind fun a => (data[3]?).bind fun b => some (u16_from_be_bytes a b)

/-- `TcpModbus::transaction_id`: big-endian 16-bit read at offsets 0 and 1. -/
def transaction_id (data : List Byte) : Option Nat :=
  (data[0]?).bind fun a => (data[1]?).bind fun b => some (u16_from_be_bytes a b)

/-- `TcpModbus::length`: big-endian 16-bit read at offsets 4 and 5. -/
def length (data : List Byte) : Option Nat :=
  (data[4]?).bind fun a => (data[5]?).bind fun b => some (u16_from_be_bytes a b)

/-- `TcpModbus::unit_id`: bounds-checked single-byte read at offset 6. -/
def unit_id (data : List Byte) : Option Nat :=
  (data[6]?).map Fin.val

/-- Associated constant `ADU_MAX_LENGTH` of the `ModbusProtocol` impl. -/
def ADU_MAX_LENGTH : Nat := 260

/-- `TcpModbus::adu_length`: match on `Self::length(data)`; on `None` fail with
`NotEnoughData`, on `Some(v)` return `v as usize + MBAP_LENGTH`. -/
def adu_length (data : List Byte) : Except ModbusError Nat :=
  match TcpModbus.length data with
  | none => Except.error ModbusError.NotEnoughData
  | some v => Except.ok (v + MBAP_LENGTH)

/-- `TcpModbus::adu_header`: read the four fields with `ok_or(NotEnoughData)`,
each `?` short-circuiting, and assemble the header struct. -/
def adu_header (data : List Byte) : Except ModbusError TcpModbusHeader :=
  (ok_or (transaction_id data) ModbusError.NotEnoughData).bind fun t =>
  (ok_or (protocol_id data) ModbusError.NotEnoughData).bind fun p =>
  (ok_or (TcpModbus.length data) ModbusError.NotEnoughData).bind fun l =>
  (ok_or (unit_id data) ModbusError.NotEnoughData).bind fun u =>
  Except.ok { transaction_id := t, protocol_id := p, length := l, unit_id := u }

/-- `TcpModbus::adu_check`: compute `adu_length` (propagating its error with
`?`), then succeed exactly when `data.len() > length`. -/
def adu_check (data : List Byte) : Except ModbusError Unit :=
  (adu_length data).bind fun l =>
  if data.length > l then Except.ok () else Except.error ModbusError.NotEnoughData

/-- `TcpModbus::pdu_body`: run `adu_check` (propagating its error with `?`),
then return the slice `&data[MBAP_LENGTH..]`. -/
def pdu_body (data : List Byte) : Except ModbusError (List Byte) :=
  (adu_check data).bind fun _ => Except.ok (data.drop MBAP_LENGTH)

end TcpModbus

/-- Concrete buffer from spec section 8: transaction 1, protocol 0, length
field 2, unit 0x11, function code 0x03 — 8 bytes total. -/
def buf3 : List Byte := [0x00, 0x01, 0x00, 0x00, 0x00, 0x02, 0x11, 0x03]

/-- The same header truncated to the 7 header bytes. -/
def buf7 : List Byte := [0x00, 0x01, 0x00, 0x00, 0x00, 0x02, 0x11]

/-- A complete ADU with length field 2: 6-byte prefix, unit 0x11, function 0x03. -/
def adu8c : List Byte := [0x00, 0x00, 0x00, 0x00, 0x00, 0x02, 0x11, 0x03]

/-- A 10-byte buffer whose length field is 2, so its code-computed ADU length
is 9 and every operation succeeds on it. -/
def buf10 : List Byte := [0x00, 0x00, 0x00, 0x00, 0x00, 0x02, 0x22, 0x07, 0x08, 0x09]

/-! Small reduction lemmas for `ok_or` and `Except.bind`. -/

theorem ok_or_some {α : Type} (v : α) (e : ModbusError) :
    ok_or (some v) e = Except.ok v := rfl

theorem ok_or_none {α : Type} (e : ModbusError) :
    ok_or (none : Option α) e = Except.error e := rfl

theorem except_bind_ok {α β : Type} (v : α) (f : α → Except ModbusError β) :
    (Except.ok v).bind f = f v := rfl

theorem except_bind_error {α β : Type} (e : ModbusError) (f : α → Except ModbusError β) :
    (Except.error e : Except ModbusError α).bind f = Except.error e := rfl

namespace TcpModbus

/-! Characterizations of the four field accessors by buffer length. -/

theorem be16_bind_eq {data : List Byte} {i j : Nat} (hi : i < data.length)
    (hj : j < data.length) :
    ((data[i]?).bind fun a => (data[j]?).bind fun b => some (u16_from_be_bytes a b)) =
      some (u16_from_be_bytes (data.getD i 0) (data.getD j 0)) := by
  rw [List.getElem?_eq_getElem hi, List.getElem?_eq_getElem hj,
    List.getD_eq_getElem data 0 hi, List.getD_eq_getElem data 0 hj]
  rfl

theorem transaction_id_eq_some (data : List Byte) (h : 2 ≤ data.length) :
    transaction_id data = some (u16_from_be_bytes (data.getD 0 0) (data.getD 1 0)) :=
  be16_bind_eq (by omega) (by omega)

theorem transaction_id_eq_none (data : List Byte) (h : data.length < 2) :
    transaction_id data = none := by
  unfold transaction_id
  rw [List.getElem?_eq_none (show data.length ≤ 1 by omega)]
  cases data[0]? <;> rfl

theorem protocol_id_eq_some (data : List Byte) (h : 4 ≤ data.length) :
    protocol_id data = some (u16_from_be_bytes (data.getD 2 0) (data.getD 3 0)) :=
  be16_bind_eq (by omega) (by omega)

theorem protocol_id_eq_none (data : List Byte) (h : data.length < 4) :
    protocol_id data = none := by
  unfold protocol_id
  rw [List.getElem?_eq_none (show data.length ≤ 3 by omega)]
  cases data[2]? <;> rfl

theorem length_eq_some (data : List Byte) (h : 6 ≤ data.length) :
    TcpModbus.length data = some (u16_from_be_bytes (data.getD 4 0) (data.getD 5 0)) :=
  be16_bind_eq (by omega) (by omega)

theorem length_eq_none (data : List Byte) (h : data.length < 6) :
    TcpModbus.length data = none := by
  unfold TcpModbus.length
  rw [List.getElem?_eq_none (show data.length ≤ 5 by omega)]
  cases data[4]? <;> rfl

theorem unit_id_eq_some (data : List Byte) (h : 7 ≤ data.length) :
    unit_id data = some (data.getD 6 0).val := by
  unfold unit_id
  rw [List.getElem?_eq_getElem (show 6 < data.length by omega),
    List.getD_eq_getElem data 0 (show 6 < data.length by omega)]
  rfl

theorem unit_id_eq_none (data : List Byte) (h : data.length < 7) :
    unit_id data = none := by
  unfold unit_id
  rw [List.getElem?_eq_none (show data.length ≤ 6 by omega)]
  rfl

/-! Characterizations of `adu_length` and `adu_header`. -/

theorem adu_length_eq_ok (data : List Byte) (h : 6 ≤ data.length) :
    adu_length data =
      Except.ok (u16_from_be_bytes (data.getD 4 0) (data.getD 5 0) + MBAP_LENGTH) := by
  unfold adu_length
  rw [length_eq_some data h]

theorem adu_length_eq_error (data : List Byte) (h : data.length < 6) :
    adu_length data = Except.error ModbusError.NotEnoughData := by
  unfold adu_length
  rw [length_eq_none data h]

theorem adu_header_eq_ok (data : List Byte) (h : 7 ≤ data.length) :
    adu_header data = Except.ok
      { transaction_id := u16_from_be_bytes (data.getD 0 0) (data.getD 1 0),
        protocol_id := u16_from_be_bytes (data.getD 2 0) (data.getD 3 0),
        length := u16_from_be_bytes (data.getD 4 0) (data.getD 5 0),
        unit_id := (data.getD 6 0).val } := by
  simp only [adu_header, transaction_id_eq_some data (by omega),
    protocol_id_eq_some data (by omega), length_eq_some data (by omega),
    unit_id_eq_some data h, ok_or_some, except_bind_ok]

theorem adu_header_eq_error (data : List Byte) (h : data.length < 7) :
    adu_header data = Except.error ModbusError.NotEnoughData := by
  rcases Nat.lt_or_ge data.length 2 with h2 | h2
  · simp only [adu_header, transaction_id_eq_none data h2, ok_or_none, except_bind_error]
  rcases Nat.lt_or_ge data.length 4 with h4 | h4
  · simp only [adu_header, transaction_id_eq_some data h2,
      protocol_id_eq_none data h4, ok_or_some, ok_or_none, except_bind_ok,
      except_bind_error]
  rcases Nat.lt_or_ge data.length 6 with h6 | h6
  · simp only [adu_header, transaction_id_eq_some data h2,
      protocol_id_eq_some data h4, length_eq_none data h6, ok_or_some, ok_or_none,
      except_bind_ok, except_bind_error]
  · simp only [adu_header, transaction_id_eq_some data h2,
      protocol_id_eq_some data h4, length_eq_some data h6, unit_id_eq_none data h,
      ok_or_some, ok_or_none, except_bind_ok, except_bind_error]

/-! Characterizations and inversions for `adu_check` and `pdu_body`. -/

theorem adu_length_ok_inv (data : List Byte) (n : Nat)
    (h : adu_length data = Except.ok n) :
    6 ≤ data.length ∧
      n = u16_from_be_bytes (data.getD 4 0) (data.getD 5 0) + MBAP_LENGTH := by
  rcases Nat.lt_or_ge data.length 6 with h6 | h6
  · rw [adu_length_eq_error data h6] at h
    exact Except.noConfusion h
  · rw [adu_length_eq_ok data h6] at h
    exact ⟨h6, (Except.ok.inj h).symm⟩

theorem adu_header_ok_inv (data : List Byte) (hd : TcpModbusHeader)
    (h : adu_header data = Except.ok hd) :
    7 ≤ data.length ∧
      hd = { transaction_id := u16_from_be_bytes (data.getD 0 0) (data.getD 1 0),
             protocol_id := u16_from_be_bytes (data.getD 2 0) (data.getD 3 0),
             length := u16_from_be_bytes (data.getD 4 0) (data.getD 5 0),
             unit_id := (data.getD 6 0).val } := by
  rcases Nat.lt_or_ge data.length 7 with h7 | h7
  · rw [adu_header_eq_error data h7] at h
    exact Except.noConfusion h
  · rw [adu_header_eq_ok data h7] at h
    exact ⟨h7, (Except.ok.inj h).symm⟩

theorem adu_check_eq_ok (data : List Byte) (h6 : 6 ≤ data.length)
    (hlt : u16_from_be_bytes (data.getD 4 0) (data.getD 5 0) + MBAP_LENGTH <
      data.length) :
    adu_check data = Except.ok () := by
  simp only [adu_check, adu_length_eq_ok data h6, except_bind_ok]
  exact if_pos hlt

theorem adu_check_eq_error_of_short (data : List Byte) (h : data.length < 6) :
    adu_check data = Except.error ModbusError.NotEnoughData := by
  simp only [adu_check, adu_length_eq_error data h, except_bind_error]

theorem adu_check_eq_error_of_le (data : List Byte) (h6 : 6 ≤ data.length)
    (hge : data.length ≤
      u16_from_be_bytes (data.getD 4 0) (data.getD 5 0) + MBAP_LENGTH) :
    adu_check data = Except.error ModbusError.NotEnoughData := by
  simp only [adu_check, adu_length_eq_ok data h6, except_bind_ok]
  exact if_neg (by omega)

theorem adu_check_ok_iff (data : List Byte) :
    adu_check data = Except.ok () ↔
      6 ≤ data.length ∧
        u16_from_be_bytes (data.getD 4 0) (data.getD 5 0) + MBAP_LENGTH <
          data.length := by
  constructor
  · intro h
    rcases Nat.lt_or_ge data.length 6 with h6 | h6
    · rw [adu_check_eq_error_of_short data h6] at h
      exact Except.noConfusion h
    · refine ⟨h6, ?_⟩
      by_contra hc
      push_neg at hc
      rw [adu_check_eq_error_of_le data h6 hc] at h
      exact Except.noConfusion h
  · rintro ⟨h6, hlt⟩
    exact adu_check_eq_ok data h6 hlt

theorem adu_check_cases (data : List Byte) :
    adu_check data = Except.ok () ∨
      adu_check data = Except.error ModbusError.NotEnoughData := by
  rcases Nat.lt_or_ge data.length 6 with h6 | h6
  · exact Or.inr (adu_check_eq_error_of_short data h6)
  rcases Nat.lt_or_ge (u16_from_be_bytes (data.getD 4 0) (data.getD 5 0) + MBAP_LENGTH)
      data.length with hlt | hge
  · exact Or.inl (adu_check_eq_ok data h6 hlt)
  · exact Or.inr (adu_check_eq_error_of_le data h6 hge)

theorem pdu_body_eq_ok (data : List Byte) (h : adu_check data = Except.ok ()) :
    pdu_body data = Except.ok (data.drop MBAP_LENGTH) := by
  simp only [pdu_body, h, except_bind_ok]

theorem pdu_body_eq_error (data : List Byte) (e : ModbusError)
    (h : adu_check data = Except.error e) :
    pdu_body data = Except.error e := by
  simp only [pdu_body, h, except_bind_error]

/-! Stability of reads under appending bytes on the right. -/

theorem getD_append_left (b s : List Byte) (i : Nat) (h : i < b.length) :
    (b ++ s).getD i 0 = b.getD i 0 := by
  rw [List.getD_eq_getElem?_getD, List.getD_eq_getElem?_getD,
    List.getElem?_append_left h]

end TcpModbus

/-! Claim theorems. -/

/-- C1: the claim states that on a buffer of at least 6 bytes `adu_length`
returns the big-endian length field plus 6, so a zero length field yields 6.
Evaluating the code on six zero bytes (length field 0) instead yields 7: the
source adds `MBAP_LENGTH` (7), not `EXCLUDED_LENGTH` (6), contradicting its own
doc comment that says the return value is the length field plus 6. -/
theorem C1_adu_length_code_eval :
    TcpModbus.adu_length (List.replicate 6 (0 : Byte)) = Except.ok 7 ∧
    TcpModbus.adu_length (List.replicate 6 (0 : Byte)) ≠ Except.ok 6 := by
  decide

/-- C3 counterexample: on the spec's concrete 8-byte buffer the code does not
return `adu_length = 8`, `adu_check` does not succeed, and `pdu_body` does not
return `[0x03, 0x00]`, refuting the claim at this input. -/
theorem C3_counterexample :
    TcpModbus.adu_length buf3 ≠ Except.ok 8 ∧
    TcpModbus.adu_check buf3 ≠ Except.ok () ∧
    TcpModbus.pdu_body buf3 ≠ Except.ok [0x03, 0x00] := by
  decide

/-- C3 amended: on the concrete 8-byte buffer, `adu_length` returns 9 (length
field 2 plus `MBAP_LENGTH` 7), `adu_check` and `pdu_body` fail with
`NotEnoughData` (8 is not strictly greater than 9), and `adu_header` returns
transaction 1, protocol 0, length 2, unit 0x11. -/
theorem C3_amended_behavior :
    TcpModbus.adu_length buf3 = Except.ok 9 ∧
    TcpModbus.adu_check buf3 = Except.error ModbusError.NotEnoughData ∧
    TcpModbus.adu_header buf3 = Except.ok
      { transaction_id := 1, protocol_id := 0, length := 2, unit_id := 0x11 } ∧
    TcpModbus.pdu_body buf3 = Except.error ModbusError.NotEnoughData := by
  decide

/-- C4: when `adu_length` succeeds with value n, `adu_check` succeeds exactly
when the buffer's byte count strictly exceeds n and fails with `NotEnoughData`
otherwise; when `adu_length` fails, `adu_check` fails with the same error. -/
theorem C4_adu_check_spec (data : List Byte) :
    (∀ n, TcpModbus.adu_length data = Except.ok n →
      TcpModbus.adu_check data =
        if data.length > n then Except.ok ()
        else Except.error ModbusError.NotEnoughData) ∧
    (∀ e, TcpModbus.adu_length data = Except.error e →
      TcpModbus.adu_check data = Except.error e) := by
  constructor
  · intro n hn
    simp only [TcpModbus.adu_check, hn, except_bind_ok]
  · intro e he
    simp only [TcpModbus.adu_check, he, except_bind_error]

/-- C4 witness: on an 8-byte all-zero buffer `adu_length` is 7 and 8 > 7, so
`adu_check` succeeds. -/
theorem C4_adu_check_spec_witness :
    TcpModbus.adu_check (List.replicate 8 (0 : Byte)) = Except.ok () := by
  have h := (C4_adu_check_spec (List.replicate 8 (0 : Byte))).1 7 (by decide)
  rw [if_pos (by decide)] at h
  exact h

/-- C6: `adu_length` fails with `NotEnoughData` exactly on buffers shorter than
6 bytes. -/
theorem C6_adu_length_error_iff (data : List Byte) :
    TcpModbus.adu_length data = Except.error ModbusError.NotEnoughData ↔
      data.length < 6 := by
  constructor
  · intro h
    by_contra hc
    push_neg at hc
    rw [TcpModbus.adu_length_eq_ok data hc] at h
    exact Except.noConfusion h
  · intro h
    exact TcpModbus.adu_length_eq_error data h

/-- C6 witness: the empty buffer is shorter than 6 bytes, so `adu_length`
fails with `NotEnoughData`. -/
theorem C6_adu_length_error_iff_witness :
    TcpModbus.adu_length ([] : List Byte) = Except.error ModbusError.NotEnoughData :=
  (C6_adu_length_error_iff []).mpr (by decide)

/-- C7: `adu_header` fails with `NotEnoughData` exactly on buffers shorter than
7 bytes (never returning a partial header), and on any buffer of at least 7
bytes it succeeds — whether or not the rest of the ADU is present — with the
transaction id from big-endian bytes 0-1, protocol id from bytes 2-3, length
from bytes 4-5 and unit id from byte 6. -/
theorem C7_adu_header_spec (data : List Byte) :
    (TcpModbus.adu_header data = Except.error ModbusError.NotEnoughData ↔
      data.length < 7) ∧
    (7 ≤ data.length →
      TcpModbus.adu_header data = Except.ok
        { transaction_id := u16_from_be_bytes (data.getD 0 0) (data.getD 1 0),
          protocol_id := u16_from_be_bytes (data.getD 2 0) (data.getD 3 0),
          length := u16_from_be_bytes (data.getD 4 0) (data.getD 5 0),
          unit_id := (data.getD 6 0).val }) := by
  refine ⟨⟨?_, ?_⟩, ?_⟩
  · intro h
    by_contra hc
    push_neg at hc
    rw [TcpModbus.adu_header_eq_ok data hc] at h
    exact Except.noConfusion h
  · intro h
    exact TcpModbus.adu_header_eq_error data h
  · intro h
    exact TcpModbus.adu_header_eq_ok data h

/-- C7 witness: the 7-byte truncated buffer still yields the full header
transaction 1, protocol 0, length 2, unit 0x11. -/
theorem C7_adu_header_spec_witness :
    TcpModbus.adu_header buf7 = Except.ok
      { transaction_id := 1, protocol_id := 0, length := 2, unit_id := 0x11 } := by
  have h := (C7_adu_header_spec buf7).2 (by decide)
  rw [h]
  decide

/-- C5: on every buffer each of the four operations terminates with either a
value or the typed `NotEnoughData` failure, and the slice `data[7..]` that
`pdu_body` takes without a bounds check is reachable only when the buffer is
strictly longer than 7 bytes, where it is in bounds and drops exactly the
7 header bytes. -/
theorem C5_safety_total (data : List Byte) :
    ((∃ n, TcpModbus.adu_length data = Except.ok n) ∨
      TcpModbus.adu_length data = Except.error ModbusError.NotEnoughData) ∧
    ((∃ hd, TcpModbus.adu_header data = Except.ok hd) ∨
      TcpModbus.adu_header data = Except.error ModbusError.NotEnoughData) ∧
    (TcpModbus.adu_check data = Except.ok () ∨
      TcpModbus.adu_check data = Except.error ModbusError.NotEnoughData) ∧
    ((∃ b, TcpModbus.pdu_body data = Except.ok b) ∨
      TcpModbus.pdu_body data = Except.error ModbusError.NotEnoughData) ∧
    (∀ b, TcpModbus.pdu_body data = Except.ok b →
      MBAP_LENGTH < data.length ∧ b = data.drop MBAP_LENGTH ∧
        b.length = data.length - MBAP_LENGTH) := by
  refine ⟨?_, ?_, TcpModbus.adu_check_cases data, ?_, ?_⟩
  · rcases Nat.lt_or_ge data.length 6 with h6 | h6
    · exact Or.inr (TcpModbus.adu_length_eq_error data h6)
    · exact Or.inl ⟨_, TcpModbus.adu_length_eq_ok data h6⟩
  · rcases Nat.lt_or_ge data.length 7 with h7 | h7
    · exact Or.inr (TcpModbus.adu_header_eq_error data h7)
    · exact Or.inl ⟨_, TcpModbus.adu_header_eq_ok data h7⟩
  · rcases TcpModbus.adu_check_cases data with hc | hc
    · exact Or.inl ⟨_, TcpModbus.pdu_body_eq_ok data hc⟩
    · exact Or.inr (TcpModbus.pdu_body_eq_error data _ hc)
  · intro b hb
    rcases TcpModbus.adu_check_cases data with hc | hc
    · have hdrop := TcpModbus.pdu_body_eq_ok data hc
      rw [hb] at hdrop
      have hbd : b = data.drop MBAP_LENGTH := Except.ok.inj hdrop
      have hbound := ((TcpModbus.adu_check_ok_iff data).mp hc).2
      refine ⟨by simp only [MBAP_LENGTH] at hbound ⊢; omega, hbd, ?_⟩
      rw [hbd]
      exact List.length_drop MBAP_LENGTH data
    · rw [TcpModbus.pdu_body_eq_error data _ hc] at hb
      exact Except.noConfusion hb

/-- C5 witness: on the concrete 10-byte buffer `pdu_body` succeeds with the
last three bytes, so the slice at offset 7 is in bounds. -/
theorem C5_safety_total_witness :
    MBAP_LENGTH < buf10.length ∧
      [(0x07 : Byte), 0x08, 0x09] = buf10.drop MBAP_LENGTH ∧
      ([(0x07 : Byte), 0x08, 0x09] : List Byte).length = buf10.length - MBAP_LENGTH :=
  (C5_safety_total buf10).2.2.2.2 [0x07, 0x08, 0x09] (by decide)

/-- C8: `pdu_body` propagates `adu_check` failures unchanged and succeeds
whenever `adu_check` succeeds, and `NotEnoughData` is the only error value any
of the four operations ever returns (even though the error type also has a
checksum-mismatch kind). -/
theorem C8_error_propagation (data : List Byte) :
    (∀ e, TcpModbus.adu_check data = Except.error e →
      TcpModbus.pdu_body data = Except.error e) ∧
    (TcpModbus.adu_check data = Except.ok () →
      TcpModbus.pdu_body data = Except.ok (data.drop MBAP_LENGTH)) ∧
    (∀ e, TcpModbus.adu_length data = Except.error e →
      e = ModbusError.NotEnoughData) ∧
    (∀ e, TcpModbus.adu_header data = Except.error e →
      e = ModbusError.NotEnoughData) ∧
    (∀ e, TcpModbus.adu_check data = Except.error e →
      e = ModbusError.NotEnoughData) ∧
    (∀ e, TcpModbus.pdu_body data = Except.error e →
      e = ModbusError.NotEnoughData) := by
  have hcheck : ∀ e, TcpModbus.adu_check data = Except.error e →
      e = ModbusError.NotEnoughData := by
    intro e he
    rcases TcpModbus.adu_check_cases data with hc | hc
    · rw [hc] at he
      exact Except.noConfusion he
    · rw [hc] at he
      exact (Except.error.inj he).symm
  refine ⟨fun e he => TcpModbus.pdu_body_eq_error data e he,
    fun hc => TcpModbus.pdu_body_eq_ok data hc, ?_, ?_, hcheck, ?_⟩
  · intro e he
    rcases Nat.lt_or_ge data.length 6 with h6 | h6
    · rw [TcpModbus.adu_length_eq_error data h6] at he
      exact (Except.error.inj he).symm
    · rw [TcpModbus.adu_length_eq_ok data h6] at he
      exact Except.noConfusion he
  · intro e he
    rcases Nat.lt_or_ge data.length 7 with h7 | h7
    · rw [TcpModbus.adu_header_eq_error data h7] at he
      exact (Except.error.inj he).symm
    · rw [TcpModbus.adu_header_eq_ok data h7] at he
      exact Except.noConfusion he
  · intro e he
    rcases TcpModbus.adu_check_cases data with hc | hc
    · rw [TcpModbus.pdu_body_eq_ok data hc] at he
      exact Except.noConfusion he
    · rw [TcpModbus.pdu_body_eq_error data _ hc] at he
      exact hcheck e (hc.trans (congrArg Except.error (Except.error.inj he)))

/-- C8 witness: on the empty buffer `adu_check` fails with `NotEnoughData` and
`pdu_body` propagates exactly that error. -/
theorem C8_error_propagation_witness :
    TcpModbus.pdu_body ([] : List Byte) = Except.error ModbusError.NotEnoughData :=
  (C8_error_propagation []).1 ModbusError.NotEnoughData (by decide)

/-- C9: whenever `adu_length` succeeds its value is at least 7, and whenever
`adu_check` succeeds the buffer is strictly longer than the 7-byte header, so
slicing from offset 7 is in bounds. -/
theorem C9_adu_length_lower_bound (data : List Byte) :
    (∀ n, TcpModbus.adu_length data = Except.ok n → 7 ≤ n) ∧
    (TcpModbus.adu_check data = Except.ok () → 7 < data.length) := by
  constructor
  · intro n hn
    have h := (TcpModbus.adu_length_ok_inv data n hn).2
    simp only [MBAP_LENGTH] at h
    omega
  · intro hc
    have h := ((TcpModbus.adu_check_ok_iff data).mp hc).2
    simp only [MBAP_LENGTH] at h
    omega

/-- C9 witness: on the concrete 10-byte buffer `adu_length` is 9 ≥ 7 and
`adu_check` succeeds with 7 < 10. -/
theorem C9_adu_length_lower_bound_witness :
    7 ≤ 9 ∧ 7 < buf10.length :=
  ⟨(C9_adu_length_lower_bound buf10).1 9 (by decide),
    (C9_adu_length_lower_bound buf10).2 (by decide)⟩

/-- C10: appending bytes on the right never invalidates a prior result —
`adu_length` and `adu_header` keep succeeding with the same value, and
`adu_check` keeps succeeding. -/
theorem C10_append_preserves (b s : List Byte) :
    (∀ n, TcpModbus.adu_length b = Except.ok n →
      TcpModbus.adu_length (b ++ s) = Except.ok n) ∧
    (∀ hd, TcpModbus.adu_header b = Except.ok hd →
      TcpModbus.adu_header (b ++ s) = Except.ok hd) ∧
    (TcpModbus.adu_check b = Except.ok () →
      TcpModbus.adu_check (b ++ s) = Except.ok ()) := by
  have hlen : (b ++ s).length = b.length + s.length := List.length_append b s
  refine ⟨?_, ?_, ?_⟩
  · intro n hn
    obtain ⟨h6, hval⟩ := TcpModbus.adu_length_ok_inv b n hn
    rw [TcpModbus.adu_length_eq_ok (b ++ s) (by omega),
      TcpModbus.getD_append_left b s 4 (by omega),
      TcpModbus.getD_append_left b s 5 (by omega), ← hval]
  · intro hd hh
    obtain ⟨h7, hval⟩ := TcpModbus.adu_header_ok_inv b hd hh
    rw [TcpModbus.adu_header_eq_ok (b ++ s) (by omega),
      TcpModbus.getD_append_left b s 0 (by omega),
      TcpModbus.getD_append_left b s 1 (by omega),
      TcpModbus.getD_append_left b s 2 (by omega),
      TcpModbus.getD_append_left b s 3 (by omega),
      TcpModbus.getD_append_left b s 4 (by omega),
      TcpModbus.getD_append_left b s 5 (by omega),
      TcpModbus.getD_append_left b s 6 (by omega), ← hval]
  · intro hc
    obtain ⟨h6, hlt⟩ := (TcpModbus.adu_check_ok_iff b).mp hc
    refine (TcpModbus.adu_check_ok_iff (b ++ s)).mpr ⟨by omega, ?_⟩
    rw [TcpModbus.getD_append_left b s 4 (by omega),
      TcpModbus.getD_append_left b s 5 (by omega)]
    omega

/-- C10 witness: all three preservations applied to the 8-byte all-zero buffer
extended by one byte. -/
theorem C10_append_preserves_witness :
    TcpModbus.adu_length (List.replicate 8 (0 : Byte) ++ [0xAB]) = Except.ok 7 ∧
    TcpModbus.adu_header (List.replicate 8 (0 : Byte) ++ [0xAB]) = Except.ok
      { transaction_id := 0, protocol_id := 0, length := 0, unit_id := 0 } ∧
    TcpModbus.adu_check (List.replicate 8 (0 : Byte) ++ [0xAB]) = Except.ok () :=
  ⟨(C10_append_preserves (List.replicate 8 (0 : Byte)) [0xAB]).1 7 (by decide),
    (C10_append_preserves (List.replicate 8 (0 : Byte)) [0xAB]).2.1
      { transaction_id := 0, protocol_id := 0, length := 0, unit_id := 0 }
      (by decide),
    (C10_append_preserves (List.replicate 8 (0 : Byte)) [0xAB]).2.2 (by decide)⟩

/-- C2 counterexample: `adu8c` is one complete ADU — its length field is 2 and
its total size is 2 + 6 = 8 bytes — and with a single trailing byte appended
the claim says `pdu_body` succeeds, but the code fails with `NotEnoughData`
(9 is not strictly greater than the code-computed ADU length 9). -/
theorem C2_counterexample :
    TcpModbus.length adu8c = some 2 ∧ adu8c.length = 2 + EXCLUDED_LENGTH ∧
    TcpModbus.pdu_body (adu8c ++ [0xFF]) =
      Except.error ModbusError.NotEnoughData := by
  decide

/-- C2 amended: with at least two trailing bytes beyond the complete ADU,
`pdu_body` succeeds and returns every byte from offset 7 through the end of the
buffer — trailing bytes included — so its result has length `L + t.length - 1`,
not the `adu_length - 7` bytes the claim states. -/
theorem C2_amended_trailing (adu t : List Byte) (L : Nat)
    (hL : TcpModbus.length adu = some L)
    (hlen : adu.length = L + EXCLUDED_LENGTH)
    (ht : 2 ≤ t.length) :
    TcpModbus.pdu_body (adu ++ t) = Except.ok ((adu ++ t).drop MBAP_LENGTH) ∧
    ((adu ++ t).drop MBAP_LENGTH).length = L + t.length - 1 := by
  have hE : EXCLUDED_LENGTH = 6 := rfl
  have hM : MBAP_LENGTH = 7 := rfl
  have h6 : 6 ≤ adu.length := by omega
  have happlen : (adu ++ t).length = adu.length + t.length := List.length_append adu t
  have hval : u16_from_be_bytes (adu.getD 4 0) (adu.getD 5 0) = L := by
    have hsome := TcpModbus.length_eq_some adu h6
    rw [hL] at hsome
    exact (Option.some.inj hsome).symm
  have hcheck : TcpModbus.adu_check (adu ++ t) = Except.ok () := by
    refine (TcpModbus.adu_check_ok_iff (adu ++ t)).mpr ⟨by omega, ?_⟩
    rw [TcpModbus.getD_append_left adu t 4 (by omega),
      TcpModbus.getD_append_left adu t 5 (by omega), hval]
    omega
  refine ⟨TcpModbus.pdu_body_eq_ok (adu ++ t) hcheck, ?_⟩
  rw [List.length_drop]
  omega

/-- C2 witness: the complete ADU `adu8c` with two trailing bytes appended;
`pdu_body` returns the single true PDU byte 0x03 followed by both trailing
bytes. -/
theorem C2_amended_trailing_witness :
    TcpModbus.pdu_body (adu8c ++ [0xAA, 0xBB]) =
      Except.ok [(0x03 : Byte), 0xAA, 0xBB] := by
  have h := (C2_amended_trailing adu8c [0xAA, 0xBB] 2 (by decide) (by decide)
    (by decide)).1
  rw [h]
  decide

end ModbusMinimal
